import Mathlib

/-!
Verification of the GoRetro real-time retrospective server.

The development shallowly embeds the Go source:
  * `internal/models/models.go` — the `Room` aggregate and its operations;
  * the websocket hub (`Hub.HandleMessage` and its `handle*` dispatch
    targets, `SendRoomState`, `SendPendingRoomState`);
  * the `WebSocket` join handler from `internal/handlers/handlers.go`.

Go `map[string]*T` values are modelled as association lists with Go map
semantics (lookup / insert-or-replace / delete on string keys); in-place
mutation through a pointer obtained from a map becomes `alUpdate`.
Machine `int` fields become `Int`.  `time.Time` fields (`CreatedAt`) are
elided: no modelled operation reads them.  Fallible repository writes are
modelled by a boolean `updateOk` in the hub environment, and the AI
suggester by optional response values.
-/

namespace GoRetro

/-- Association-list model of a Go `map[string]α`. -/
abbrev AList (α : Type) := List (String × α)

/-- Go map lookup `m[k]` (first matching key). -/
def alGet {α : Type} : AList α → String → Option α
  | [], _ => none
  | (k, v) :: m, key => if k = key then some v else alGet m key

/-- Go map assignment `m[k] = v`: replace the first binding of `k`, else append. -/
def alInsert {α : Type} : AList α → String → α → AList α
  | [], key, v => [(key, v)]
  | (k, w) :: m, key, v =>
      if k = key then (k, v) :: m else (k, w) :: alInsert m key v

/-- Go `delete(m, k)`. -/
def alDelete {α : Type} : AList α → String → AList α
  | [], _ => []
  | (k, w) :: m, key =>
      if k = key then alDelete m key else (k, w) :: alDelete m key

/-- In-place mutation of the struct a map entry points to:
`t := m[k]; mutate(t)` in Go becomes `alUpdate m k mutate`. -/
def alUpdate {α : Type} : AList α → String → (α → α) → AList α
  | [], _, _ => []
  | (k, w) :: m, key, f =>
      if k = key then (k, f w) :: m else (k, w) :: alUpdate m key f

theorem alGet_alInsert_self {α : Type} (m : AList α) (k : String) (v : α) :
    alGet (alInsert m k v) k = some v := by
  induction m with
  | nil => simp [alInsert, alGet]
  | cons hd tl ih =>
      obtain ⟨a, b⟩ := hd
      by_cases h : a = k
      · simp [alInsert, alGet, h]
      · simp [alInsert, alGet, h, ih]

theorem alGet_alInsert_other {α : Type} (m : AList α) (k k' : String) (v : α)
    (h : k' ≠ k) : alGet (alInsert m k v) k' = alGet m k' := by
  have h' : ¬ k = k' := fun hh => h hh.symm
  induction m with
  | nil => simp [alInsert, alGet, h']
  | cons hd tl ih =>
      obtain ⟨a, b⟩ := hd
      by_cases ha : a = k
      · subst ha
        simp [alInsert, alGet, h']
      · simp [alInsert, alGet, ha, ih]

theorem alGet_alDelete_self {α : Type} (m : AList α) (k : String) :
    alGet (alDelete m k) k = none := by
  induction m with
  | nil => simp [alDelete, alGet]
  | cons hd tl ih =>
      obtain ⟨a, b⟩ := hd
      by_cases ha : a = k
      · simp [alDelete, ha, ih]
      · simp [alDelete, alGet, ha, ih]

theorem alGet_alDelete_other {α : Type} (m : AList α) (k k' : String)
    (h : k' ≠ k) : alGet (alDelete m k) k' = alGet m k' := by
  have h' : ¬ k = k' := fun hh => h hh.symm
  induction m with
  | nil => simp [alDelete]
  | cons hd tl ih =>
      obtain ⟨a, b⟩ := hd
      by_cases ha : a = k
      · subst ha
        simp [alDelete, alGet, h', ih]
      · simp [alDelete, alGet, ha, ih]

theorem alGet_alUpdate_self {α : Type} (m : AList α) (k : String) (f : α → α) :
    alGet (alUpdate m k f) k = (alGet m k).map f := by
  induction m with
  | nil => simp [alUpdate, alGet]
  | cons hd tl ih =>
      obtain ⟨a, b⟩ := hd
      by_cases ha : a = k
      · simp [alUpdate, alGet, ha]
      · simp [alUpdate, alGet, ha, ih]

theorem alGet_alUpdate_other {α : Type} (m : AList α) (k k' : String) (f : α → α)
    (h : k' ≠ k) : alGet (alUpdate m k f) k' = alGet m k' := by
  have h' : ¬ k = k' := fun hh => h hh.symm
  induction m with
  | nil => simp [alUpdate]
  | cons hd tl ih =>
      obtain ⟨a, b⟩ := hd
      by_cases ha : a = k
      · subst ha
        simp [alUpdate, alGet, h']
      · simp [alUpdate, alGet, ha, ih]

theorem alUpdate_alUpdate {α : Type} (m : AList α) (k : String) (f g : α → α) :
    alUpdate (alUpdate m k f) k g = alUpdate m k (fun x => g (f x)) := by
  induction m with
  | nil => simp [alUpdate]
  | cons hd tl ih =>
      obtain ⟨a, b⟩ := hd
      by_cases ha : a = k
      · simp [alUpdate, ha]
      · simp [alUpdate, ha, ih]

theorem alUpdate_fixpoint {α : Type} (m : AList α) (k : String) (f : α → α)
    (v : α) (hget : alGet m k = some v) (hf : f v = v) : alUpdate m k f = m := by
  induction m with
  | nil => simp [alGet] at hget
  | cons hd tl ih =>
      obtain ⟨a, b⟩ := hd
      by_cases ha : a = k
      · simp [alGet, ha] at hget
        subst hget
        simp [alUpdate, ha, hf]
      · simp [alGet, ha] at hget
        simp [alUpdate, ha, ih hget]

/-! ## Domain model (`internal/models/models.go`) -/

/-- `Phase` — the current phase of a retrospective room. -/
inductive Phase
  | ticketing
  | merging
  | voting
  | discussion
  | summary
deriving DecidableEq, Repr

/-- `Role` — a user's role in a room. -/
inductive Role
  | owner
  | moderator
  | participant
deriving DecidableEq, Repr

/-- `ParticipantStatus` — approval status of a participant. -/
inductive ParticipantStatus
  | pending
  | approved
deriving DecidableEq, Repr

/-- `User`. -/
structure User where
  id : String
  email : String
  name : String
deriving DecidableEq, Repr

/-- `Participant` — a user's membership in a room. -/
structure Participant where
  user : User
  role : Role
  status : ParticipantStatus
  votesUsed : Int
deriving DecidableEq, Repr

/-- `Ticket` — a retrospective item (`CreatedAt` elided). -/
structure Ticket where
  id : String
  content : String
  authorID : String
  deduplicationTicketID : Option String
  votes : Int
  voterIDs : List String
  covered : Bool
deriving DecidableEq, Repr

/-- `ActionTicket` — an action item (`CreatedAt` elided). -/
structure ActionTicket where
  id : String
  content : String
  assigneeIDs : List String
  ticketID : String
deriving DecidableEq, Repr

/-- `Room` — the aggregate root (`CreatedAt` and the mutex elided; all
source operations hold the lock for their whole body, so each becomes one
pure transition). -/
structure Room where
  id : String
  name : String
  ownerID : String
  phase : Phase
  votesPerUser : Int
  autoApprove : Bool
  participants : AList Participant
  pendingParticipants : AList Participant
  tickets : AList Ticket
  actionTickets : AList ActionTicket
deriving DecidableEq, Repr

/-- `NewRoom`. -/
def NewRoom (id name ownerID : String) (votesPerUser : Int) : Room :=
  { id := id
    name := name
    ownerID := ownerID
    phase := Phase.ticketing
    votesPerUser := votesPerUser
    autoApprove := false
    participants := []
    pendingParticipants := []
    tickets := []
    actionTickets := [] }

/-- `Room.AddParticipant`. -/
def Room.AddParticipant (r : Room) (user : User) (role : Role)
    (status : ParticipantStatus) : Room :=
  let p : Participant := { user := user, role := role, status := status, votesUsed := 0 }
  if status = ParticipantStatus.pending then
    { r with pendingParticipants := alInsert r.pendingParticipants user.id p }
  else
    { r with participants := alInsert r.participants user.id p }

/-- `Room.RemoveParticipant`. -/
def Room.RemoveParticipant (r : Room) (userID : String) : Room :=
  { r with participants := alDelete r.participants userID
           pendingParticipants := alDelete r.pendingParticipants userID }

/-- `Room.ApproveParticipant` (returns the source's `bool` with the new room). -/
def Room.ApproveParticipant (r : Room) (userID : String) : Bool × Room :=
  match alGet r.pendingParticipants userID with
  | some p =>
      let p1 := { p with status := ParticipantStatus.approved }
      (true, { r with participants := alInsert r.participants userID p1
                      pendingParticipants := alDelete r.pendingParticipants userID })
  | none => (false, r)

/-- `Room.RejectParticipant`. -/
def Room.RejectParticipant (r : Room) (userID : String) : Bool × Room :=
  match alGet r.pendingParticipants userID with
  | some _ => (true, { r with pendingParticipants := alDelete r.pendingParticipants userID })
  | none => (false, r)

/-- `Room.GetPendingParticipant`. -/
def Room.GetPendingParticipant (r : Room) (userID : String) : Option Participant :=
  alGet r.pendingParticipants userID

/-- `Room.GetParticipant`. -/
def Room.GetParticipant (r : Room) (userID : String) : Option Participant :=
  alGet r.participants userID

/-- `Room.SetParticipantRole`. -/
def Room.SetParticipantRole (r : Room) (userID : String) (role : Role) : Bool × Room :=
  match alGet r.participants userID with
  | some _ =>
      (true, { r with participants := alUpdate r.participants userID
                        (fun p => { p with role := role }) })
  | none => (false, r)

/-- `Room.IsModeratorOrOwner`. -/
def Room.IsModeratorOrOwner (r : Room) (userID : String) : Bool :=
  match alGet r.participants userID with
  | some p => p.role = Role.owner || p.role = Role.moderator
  | none => false

/-- `Room.AddTicket`. -/
def Room.AddTicket (r : Room) (t : Ticket) : Room :=
  { r with tickets := alInsert r.tickets t.id t }

/-- `Room.RemoveTicket` — a bare map delete; nothing else is touched. -/
def Room.RemoveTicket (r : Room) (ticketID : String) : Room :=
  { r with tickets := alDelete r.tickets ticketID }

/-- `Room.GetTicket`. -/
def Room.GetTicket (r : Room) (ticketID : String) : Option Ticket :=
  alGet r.tickets ticketID

/-- `Room.AddActionTicket`. -/
def Room.AddActionTicket (r : Room) (a : ActionTicket) : Room :=
  { r with actionTickets := alInsert r.actionTickets a.id a }

/-- `Room.RemoveActionTicket`. -/
def Room.RemoveActionTicket (r : Room) (actionID : String) : Room :=
  { r with actionTickets := alDelete r.actionTickets actionID }

/-- `Room.GetActionTicket`. -/
def Room.GetActionTicket (r : Room) (actionID : String) : Option ActionTicket :=
  alGet r.actionTickets actionID

/-- `Room.SetPhase`. -/
def Room.SetPhase (r : Room) (phase : Phase) : Room :=
  { r with phase := phase }

/-- `Room.SetAutoApprove`. -/
def Room.SetAutoApprove (r : Room) (b : Bool) : Room :=
  { r with autoApprove := b }

/-- `Room.Vote` — note the source checks quota and duplicate voting only;
it does not look at `DeduplicationTicketID`. -/
def Room.Vote (r : Room) (userID ticketID : String) : Bool × Room :=
  match alGet r.participants userID, alGet r.tickets ticketID with
  | some p, some t =>
      if r.votesPerUser ≤ p.votesUsed then (false, r)
      else if userID ∈ t.voterIDs then (false, r)
      else
        (true, { r with
          tickets := alUpdate r.tickets ticketID
            (fun t0 => { t0 with votes := t0.votes + 1, voterIDs := t0.voterIDs ++ [userID] })
          participants := alUpdate r.participants userID
            (fun p0 => { p0 with votesUsed := p0.votesUsed + 1 }) })
  | _, _ => (false, r)

/-- The source's removal loop in `Unvote`: delete the first occurrence of
`userID`, reporting whether one was found. -/
def removeFirstVoter : List String → String → Option (List String)
  | [], _ => none
  | v :: vs, userID =>
      if v = userID then some vs
      else (removeFirstVoter vs userID).map (fun rest => v :: rest)

/-- `Room.Unvote`. -/
def Room.Unvote (r : Room) (userID ticketID : String) : Bool × Room :=
  match alGet r.participants userID, alGet r.tickets ticketID with
  | some _, some t =>
      match removeFirstVoter t.voterIDs userID with
      | some rest =>
          (true, { r with
            tickets := alUpdate r.tickets ticketID
              (fun t0 => { t0 with votes := t0.votes - 1, voterIDs := rest })
            participants := alUpdate r.participants userID
              (fun p0 => { p0 with votesUsed := p0.votesUsed - 1 }) })
      | none => (false, r)
  | _, _ => (false, r)

/-! ## WebSocket message layer (`internal/websocket`, current hub revision) -/

/-- Inbound message types (`types.go`); `unknown` models any other string. -/
inductive MsgType
  | addTicket
  | editTicket
  | deleteTicket
  | vote
  | unvote
  | addAction
  | deleteAction
  | markCovered
  | setPhase
  | setRole
  | removeUser
  | approveParticipant
  | rejectParticipant
  | setAutoApprove
  | autoMergeTickets
  | autoProposeActions
  | unknown
deriving DecidableEq, Repr

/-- The inbound `payload` map.  Go handlers read it with type assertions;
each field here is `some v` when the key is present with the right type.
`deduplicationTicketID` distinguishes key absent (`none`), present as JSON
null (`some none`) and present as a string (`some (some s)`). -/
structure Payload where
  content : Option String
  ticketID : Option String
  deduplicationTicketID : Option (Option String)
  userID : Option String
  role : Option String
  phaseField : Option String
  covered : Option Bool
  autoApprove : Option Bool
  actionID : Option String
  assigneeIDs : List String
  teamContext : Option String
deriving DecidableEq, Repr

/-- The all-absent payload. -/
def Payload.empty : Payload :=
  { content := none, ticketID := none, deduplicationTicketID := none,
    userID := none, role := none, phaseField := none, covered := none,
    autoApprove := none, actionID := none, assigneeIDs := [], teamContext := none }

/-- Inbound frame `Message` (already JSON-decoded). -/
structure Message where
  type : MsgType
  payload : Payload
deriving DecidableEq, Repr

/-- The `room_state` payload assembled by `SendRoomState`,
`SendPendingRoomState`, and the inline state in `handleApproveParticipant`.
`autoApprove = none` models the `auto_approve` key being absent (only
`SendRoomState` includes it). -/
structure RoomStatePayload where
  id : String
  name : String
  phase : Phase
  votesPerUser : Int
  autoApprove : Option Bool
  participants : AList Participant
  pendingParticipants : AList Participant
  tickets : AList Ticket
  actionTickets : AList ActionTicket
deriving DecidableEq, Repr

/-- Outbound event frames (payload fields that matter to the claims). -/
inductive Event
  | ticketAdded (t : Ticket)
  | ticketUpdated (t : Ticket)
  | ticketDeleted (ticketID : String)
  | voteUpdated (ticketID : String) (votes : Int) (voterIDs : List String)
      (userID : String) (votesUsed : Int)
  | actionAdded (a : ActionTicket)
  | actionDeleted (actionID : String)
  | phaseChanged (phase : Phase)
  | roleChanged (userID : String) (role : Role)
  | userRemoved (userID : String)
  | participantApproved (userID : String) (p : Option Participant)
  | participantRejected (userID : String)
  | autoApproveChanged (b : Bool)
  | roomState (pl : RoomStatePayload)
  | autoMergeProgress (status : String)
  | autoMergeComplete (mergesApplied : Nat) (groupsCount : Nat)
  | autoProposeProgress (status : String)
  | autoProposeComplete (actionsCreated : Nat)
  | userJoined (u : User)
  | userLeft (userID : String)
  | participantPending (p : Participant)
deriving DecidableEq, Repr

/-- Where a handler sends each frame. -/
inductive Output
  | errorToSender (msg : String)
  | toSender (e : Event)
  | toClient (clientID : String) (e : Event)
  | broadcastApproved (e : Event)
  | broadcastAll (e : Event)
deriving DecidableEq, Repr

/-- One merge group from the suggester (`chatcompletion.MergeGroup`). -/
structure MergeGroup where
  parentTicketID : String
  childTicketIDs : List String
deriving DecidableEq, Repr

/-- `chatcompletion.AutoMergeResponse`. -/
structure AutoMergeResponse where
  mergeGroups : List MergeGroup
deriving DecidableEq, Repr

/-- One action suggestion from the suggester. -/
structure ActionSuggestion where
  content : String
  ticketID : String
deriving DecidableEq, Repr

/-- The suggester's propose-actions response. -/
structure ProposeActionsResponse where
  actions : List ActionSuggestion
deriving DecidableEq, Repr

/-- External behaviour the hub depends on: whether `store.Update`
succeeds, whether the chat-completion service is configured, what it
returns (`none` = call error), and the uuid generator. -/
structure HubEnv where
  updateOk : Bool
  chatConfigured : Bool
  suggestMerges : Option AutoMergeResponse
  proposeActions : Option ProposeActionsResponse
  uuid : Nat → String

/-- A handler's observable outcome: the room as mutated in memory, the
frames it emitted in order, and whether `store.Update` was invoked. -/
structure HandlerResult where
  room : Room
  outputs : List Output
  persistAttempted : Bool
deriving DecidableEq, Repr

/-- A placeholder struct value standing in where Go would dereference a
pointer that is provably non-nil on the reachable paths. -/
def dummyTicket : Ticket :=
  { id := "", content := "", authorID := "", deduplicationTicketID := none,
    votes := 0, voterIDs := [], covered := false }

/-- Placeholder participant (see `dummyTicket`). -/
def dummyParticipant : Participant :=
  { user := { id := "", email := "", name := "" },
    role := Role.participant, status := ParticipantStatus.pending, votesUsed := 0 }

namespace Hub

/-- `Hub.handleAddTicket`. -/
def handleAddTicket (env : HubEnv) (client : String) (room : Room)
    (payload : Payload) : HandlerResult :=
  if room.phase ≠ Phase.ticketing then
    ⟨room, [Output.errorToSender "Can only add tickets during ticketing phase"], false⟩
  else
    match payload.content with
    | none => ⟨room, [Output.errorToSender "Content is required"], false⟩
    | some content =>
        if content = "" then
          ⟨room, [Output.errorToSender "Content is required"], false⟩
        else
          let ticket : Ticket :=
            { id := env.uuid 0, content := content, authorID := client,
              deduplicationTicketID := none, votes := 0, voterIDs := [], covered := false }
          let room1 := room.AddTicket ticket
          if env.updateOk then
            ⟨room1, [Output.broadcastApproved (Event.ticketAdded ticket)], true⟩
          else
            ⟨room1, [Output.errorToSender "Failed to save ticket"], true⟩

/-- The in-place ticket mutation of `handleEditTicket`: overwrite the
content when the payload carries a string `content`, then apply the
`deduplication_ticket_id` key (absent — untouched; null — cleared;
string — stored as given). -/
def editMutation (payload : Payload) (t : Ticket) : Ticket :=
  let t1 := match payload.content with
    | some c => { t with content := c }
    | none => t
  match payload.deduplicationTicketID with
  | none => t1
  | some none => { t1 with deduplicationTicketID := none }
  | some (some s) => { t1 with deduplicationTicketID := some s }

/-- `Hub.handleEditTicket` — note: the only checks are existence and
author/moderator authorization; a provided `deduplication_ticket_id`
string is stored without any validation. -/
def handleEditTicket (env : HubEnv) (client : String) (room : Room)
    (payload : Payload) : HandlerResult :=
  let ticketID := payload.ticketID.getD ""
  match room.GetTicket ticketID with
  | none => ⟨room, [Output.errorToSender "Ticket not found"], false⟩
  | some ticket =>
      if ticket.authorID ≠ client ∧ ¬ room.IsModeratorOrOwner client then
        ⟨room, [Output.errorToSender "Not authorized to edit this ticket"], false⟩
      else
        let updated := editMutation payload ticket
        let room1 := { room with tickets := alUpdate room.tickets ticketID (editMutation payload) }
        if env.updateOk then
          ⟨room1, [Output.broadcastApproved (Event.ticketUpdated updated)], true⟩
        else
          ⟨room1, [Output.errorToSender "Failed to update ticket"], true⟩

/-- `Hub.handleDeleteTicket`. -/
def handleDeleteTicket (env : HubEnv) (client : String) (room : Room)
    (payload : Payload) : HandlerResult :=
  let ticketID := payload.ticketID.getD ""
  match room.GetTicket ticketID with
  | none => ⟨room, [Output.errorToSender "Ticket not found"], false⟩
  | some ticket =>
      if ticket.authorID ≠ client ∧ ¬ room.IsModeratorOrOwner client then
        ⟨room, [Output.errorToSender "Not authorized to delete this ticket"], false⟩
      else
        let room1 := room.RemoveTicket ticketID
        if env.updateOk then
          ⟨room1, [Output.broadcastApproved (Event.ticketDeleted ticketID)], true⟩
        else
          ⟨room1, [Output.errorToSender "Failed to delete ticket"], true⟩

/-- `Hub.handleVote`. -/
def handleVote (env : HubEnv) (client : String) (room : Room)
    (payload : Payload) : HandlerResult :=
  if room.phase ≠ Phase.voting then
    ⟨room, [Output.errorToSender "Can only vote during voting phase"], false⟩
  else
    let ticketID := payload.ticketID.getD ""
    match room.Vote client ticketID with
    | (false, _) =>
        ⟨room, [Output.errorToSender "Could not vote (no votes left or already voted)"], false⟩
    | (true, room1) =>
        if env.updateOk then
          let t := (room1.GetTicket ticketID).getD dummyTicket
          let p := (room1.GetParticipant client).getD dummyParticipant
          ⟨room1, [Output.broadcastApproved
            (Event.voteUpdated ticketID t.votes t.voterIDs client p.votesUsed)], true⟩
        else
          ⟨room1, [Output.errorToSender "Failed to save vote"], true⟩

/-- `Hub.handleUnvote`. -/
def handleUnvote (env : HubEnv) (client : String) (room : Room)
    (payload : Payload) : HandlerResult :=
  if room.phase ≠ Phase.voting then
    ⟨room, [Output.errorToSender "Can only unvote during voting phase"], false⟩
  else
    let ticketID := payload.ticketID.getD ""
    match room.Unvote client ticketID with
    | (false, _) => ⟨room, [Output.errorToSender "Could not unvote"], false⟩
    | (true, room1) =>
        if env.updateOk then
          let t := (room1.GetTicket ticketID).getD dummyTicket
          let p := (room1.GetParticipant client).getD dummyParticipant
          ⟨room1, [Output.broadcastApproved
            (Event.voteUpdated ticketID t.votes t.voterIDs client p.votesUsed)], true⟩
        else
          ⟨room1, [Output.errorToSender "Failed to save unvote"], true⟩

/-- `Hub.handleAddAction`. -/
def handleAddAction (env : HubEnv) (client : String) (room : Room)
    (payload : Payload) : HandlerResult :=
  if room.phase ≠ Phase.discussion then
    ⟨room, [Output.errorToSender "Can only add actions during discussion phase"], false⟩
  else if ¬ room.IsModeratorOrOwner client then
    ⟨room, [Output.errorToSender "Only moderators can add actions"], false⟩
  else
    let action : ActionTicket :=
      { id := env.uuid 0, content := payload.content.getD "",
        assigneeIDs := payload.assigneeIDs, ticketID := payload.ticketID.getD "" }
    let room1 := room.AddActionTicket action
    if env.updateOk then
      ⟨room1, [Output.broadcastApproved (Event.actionAdded action)], true⟩
    else
      ⟨room1, [Output.errorToSender "Failed to save action"], true⟩

/-- `Hub.handleDeleteAction`. -/
def handleDeleteAction (env : HubEnv) (client : String) (room : Room)
    (payload : Payload) : HandlerResult :=
  if room.phase ≠ Phase.discussion then
    ⟨room, [Output.errorToSender "Can only delete actions during discussion phase"], false⟩
  else if ¬ room.IsModeratorOrOwner client then
    ⟨room, [Output.errorToSender "Only moderators can delete actions"], false⟩
  else
    match payload.actionID with
    | none => ⟨room, [Output.errorToSender "Action ID is required"], false⟩
    | some actionID =>
        if actionID = "" then
          ⟨room, [Output.errorToSender "Action ID is required"], false⟩
        else
          match room.GetActionTicket actionID with
          | none => ⟨room, [Output.errorToSender "Action not found"], false⟩
          | some _ =>
              let room1 := room.RemoveActionTicket actionID
              if env.updateOk then
                ⟨room1, [Output.broadcastApproved (Event.actionDeleted actionID)], true⟩
              else
                ⟨room1, [Output.errorToSender "Failed to delete action"], true⟩

/-- `Hub.handleMarkCovered`. -/
def handleMarkCovered (env : HubEnv) (client : String) (room : Room)
    (payload : Payload) : HandlerResult :=
  if room.phase ≠ Phase.discussion ∧ room.phase ≠ Phase.summary then
    ⟨room, [Output.errorToSender
      "Can only mark tickets as covered during discussion or summary phase"], false⟩
  else if ¬ room.IsModeratorOrOwner client then
    ⟨room, [Output.errorToSender "Only moderators can mark tickets as covered"], false⟩
  else
    match payload.ticketID with
    | none => ⟨room, [Output.errorToSender "Ticket ID is required"], false⟩
    | some ticketID =>
        if ticketID = "" then
          ⟨room, [Output.errorToSender "Ticket ID is required"], false⟩
        else
          match payload.covered with
          | none => ⟨room, [Output.errorToSender "Covered status is required"], false⟩
          | some covered =>
              match room.GetTicket ticketID with
              | none => ⟨room, [Output.errorToSender "Ticket not found"], false⟩
              | some ticket =>
                  let setCov : Ticket → Ticket := fun t => { t with covered := covered }
                  let updated := setCov ticket
                  let room1 := { room with tickets := alUpdate room.tickets ticketID setCov }
                  if env.updateOk then
                    ⟨room1, [Output.broadcastApproved (Event.ticketUpdated updated)], true⟩
                  else
                    ⟨room1, [Output.errorToSender "Failed to update ticket covered status"], true⟩

/-- The source's phase-validation loop: `models.Phase(s)` is valid iff it
is one of the five enumerated values. -/
def parsePhase (s : String) : Option Phase :=
  if s = "TICKETING" then some Phase.ticketing
  else if s = "MERGING" then some Phase.merging
  else if s = "VOTING" then some Phase.voting
  else if s = "DISCUSSION" then some Phase.discussion
  else if s = "SUMMARY" then some Phase.summary
  else none

/-- `Hub.handleSetPhase`. -/
def handleSetPhase (env : HubEnv) (client : String) (room : Room)
    (payload : Payload) : HandlerResult :=
  if ¬ room.IsModeratorOrOwner client then
    ⟨room, [Output.errorToSender "Only moderators can change phase"], false⟩
  else
    match parsePhase (payload.phaseField.getD "") with
    | none => ⟨room, [Output.errorToSender "Invalid phase"], false⟩
    | some phase =>
        let room1 := room.SetPhase phase
        if env.updateOk then
          ⟨room1, [Output.broadcastApproved (Event.phaseChanged phase)], true⟩
        else
          ⟨room1, [Output.errorToSender "Failed to save phase change"], true⟩

/-- The source's role check: `models.Role(s)` passes iff it equals
`moderator` or `participant`. -/
def parseAssignableRole (s : String) : Option Role :=
  if s = "moderator" then some Role.moderator
  else if s = "participant" then some Role.participant
  else none

/-- `Hub.handleSetRole` — note: the sender must be the room owner and the
role must parse, but there is no check that the target differs from the
owner. -/
def handleSetRole (env : HubEnv) (client : String) (room : Room)
    (payload : Payload) : HandlerResult :=
  if room.ownerID ≠ client then
    ⟨room, [Output.errorToSender "Only room owner can change roles"], false⟩
  else
    let userID := payload.userID.getD ""
    match parseAssignableRole (payload.role.getD "") with
    | none => ⟨room, [Output.errorToSender "Invalid role"], false⟩
    | some role =>
        match room.SetParticipantRole userID role with
        | (false, _) => ⟨room, [Output.errorToSender "User not found"], false⟩
        | (true, room1) =>
            if env.updateOk then
              ⟨room1, [Output.broadcastAll (Event.roleChanged userID role)], true⟩
            else
              ⟨room1, [Output.errorToSender "Failed to save role change"], true⟩

/-- `Hub.handleRemoveUser`. -/
def handleRemoveUser (env : HubEnv) (client : String) (room : Room)
    (payload : Payload) : HandlerResult :=
  if room.ownerID ≠ client ∧ ¬ room.IsModeratorOrOwner client then
    ⟨room, [Output.errorToSender "Only owner or moderator can remove users"], false⟩
  else
    let userID := payload.userID.getD ""
    if userID = room.ownerID then
      ⟨room, [Output.errorToSender "Cannot remove room owner"], false⟩
    else
      let room1 := room.RemoveParticipant userID
      if env.updateOk then
        ⟨room1, [Output.broadcastAll (Event.userRemoved userID)], true⟩
      else
        ⟨room1, [Output.errorToSender "Failed to remove user"], true⟩

/-- The room-state payload assembled inline in `handleApproveParticipant`
(no `auto_approve` key). -/
def approveStatePayload (r : Room) : RoomStatePayload :=
  { id := r.id, name := r.name, phase := r.phase, votesPerUser := r.votesPerUser,
    autoApprove := none, participants := r.participants,
    pendingParticipants := r.pendingParticipants, tickets := r.tickets,
    actionTickets := r.actionTickets }

/-- `Hub.handleApproveParticipant`. -/
def handleApproveParticipant (env : HubEnv) (client : String) (room : Room)
    (payload : Payload) : HandlerResult :=
  if ¬ room.IsModeratorOrOwner client then
    ⟨room, [Output.errorToSender "Only moderator or owner can approve participants"], false⟩
  else
    let userID := payload.userID.getD ""
    match room.ApproveParticipant userID with
    | (false, _) => ⟨room, [Output.errorToSender "Participant not found in pending list"], false⟩
    | (true, room1) =>
        if env.updateOk then
          ⟨room1,
            [Output.broadcastAll
              (Event.participantApproved userID (room1.GetParticipant userID)),
             Output.toClient userID (Event.roomState (approveStatePayload room1))], true⟩
        else
          ⟨room1, [Output.errorToSender "Failed to approve participant"], true⟩

/-- `Hub.handleRejectParticipant`. -/
def handleRejectParticipant (env : HubEnv) (client : String) (room : Room)
    (payload : Payload) : HandlerResult :=
  if ¬ room.IsModeratorOrOwner client then
    ⟨room, [Output.errorToSender "Only moderator or owner can reject participants"], false⟩
  else
    let userID := payload.userID.getD ""
    match room.RejectParticipant userID with
    | (false, _) => ⟨room, [Output.errorToSender "Participant not found in pending list"], false⟩
    | (true, room1) =>
        if env.updateOk then
          ⟨room1, [Output.broadcastAll (Event.participantRejected userID)], true⟩
        else
          ⟨room1, [Output.errorToSender "Failed to reject participant"], true⟩

/-- `Hub.handleSetAutoApprove`. -/
def handleSetAutoApprove (env : HubEnv) (client : String) (room : Room)
    (payload : Payload) : HandlerResult :=
  if ¬ room.IsModeratorOrOwner client then
    ⟨room, [Output.errorToSender "Only moderator or owner can change auto-approve setting"], false⟩
  else
    match payload.autoApprove with
    | none => ⟨room, [Output.errorToSender "Invalid auto_approve value"], false⟩
    | some b =>
        let room1 := room.SetAutoApprove b
        if env.updateOk then
          ⟨room1, [Output.broadcastAll (Event.autoApproveChanged b)], true⟩
        else
          ⟨room1, [Output.errorToSender "Failed to update auto-approve setting"], true⟩

/-- One child merge inside `handleAutoMergeTickets`: state is the room so
far, the emitted frames, and the applied-merge count. -/
def autoMergeChild (parentID : String) (acc : Room × List Output × Nat)
    (childID : String) : Room × List Output × Nat :=
  let room := acc.1
  match room.GetTicket childID with
  | none => acc
  | some child =>
      if child.deduplicationTicketID ≠ none then acc
      else if childID = parentID then acc
      else
        let setParent : Ticket → Ticket := fun t => { t with deduplicationTicketID := some parentID }
        let updated := setParent child
        ({ room with tickets := alUpdate room.tickets childID setParent },
         acc.2.1 ++ [Output.broadcastApproved (Event.ticketUpdated updated)],
         acc.2.2 + 1)

/-- One merge group inside `handleAutoMergeTickets`. -/
def autoMergeGroup (acc : Room × List Output × Nat) (g : MergeGroup) :
    Room × List Output × Nat :=
  match acc.1.GetTicket g.parentTicketID with
  | none => acc
  | some parent =>
      if parent.deduplicationTicketID ≠ none then acc
      else g.childTicketIDs.foldl (autoMergeChild g.parentTicketID) acc

/-- `Hub.handleAutoMergeTickets` — note: each applied child merge is
broadcast immediately, and `store.Update` runs only once at the end. -/
def handleAutoMergeTickets (env : HubEnv) (client : String) (room : Room)
    (_payload : Payload) : HandlerResult :=
  if ¬ room.IsModeratorOrOwner client then
    ⟨room, [Output.errorToSender "Only moderators can trigger auto-merge"], false⟩
  else if room.phase ≠ Phase.merging then
    ⟨room, [Output.errorToSender "Auto-merge is only available during discussion phase"], false⟩
  else if ¬ env.chatConfigured then
    ⟨room, [Output.errorToSender "Chat completion service not configured"], false⟩
  else
    let progress := [Output.toClient client (Event.autoMergeProgress "analyzing")]
    match env.suggestMerges with
    | none => ⟨room, progress ++ [Output.errorToSender "Auto-merge failed"], false⟩
    | some resp =>
        let res := resp.mergeGroups.foldl autoMergeGroup (room, progress, 0)
        if env.updateOk then
          ⟨res.1, res.2.1 ++
            [Output.toClient client
              (Event.autoMergeComplete res.2.2 resp.mergeGroups.length)], true⟩
        else
          ⟨res.1, res.2.1 ++ [Output.errorToSender "Failed to save changes"], true⟩

/-- One suggested action inside `handleAutoProposeActions`; the index
feeds the uuid generator. -/
def autoProposeStep (env : HubEnv) (acc : Room × List Output × Nat)
    (s : ActionSuggestion) : Room × List Output × Nat :=
  let action : ActionTicket :=
    { id := env.uuid acc.2.2, content := "🤖 " ++ s.content,
      assigneeIDs := [], ticketID := s.ticketID }
  (acc.1.AddActionTicket action,
   acc.2.1 ++ [Output.broadcastApproved (Event.actionAdded action)],
   acc.2.2 + 1)

/-- `Hub.handleAutoProposeActions` — like auto-merge, every created action
is broadcast before the single `store.Update` at the end. -/
def handleAutoProposeActions (env : HubEnv) (client : String) (room : Room)
    (_payload : Payload) : HandlerResult :=
  if ¬ room.IsModeratorOrOwner client then
    ⟨room, [Output.errorToSender "Only moderators can trigger auto-propose actions"], false⟩
  else if room.phase ≠ Phase.discussion then
    ⟨room, [Output.errorToSender "Auto-propose actions is only available during summary phase"], false⟩
  else if ¬ env.chatConfigured then
    ⟨room, [Output.errorToSender "Chat completion service not configured"], false⟩
  else
    let progress := [Output.toClient client (Event.autoProposeProgress "analyzing")]
    match env.proposeActions with
    | none => ⟨room, progress ++ [Output.errorToSender "Auto-propose actions failed"], false⟩
    | some resp =>
        let res := resp.actions.foldl (autoProposeStep env) (room, progress, 0)
        if env.updateOk then
          ⟨res.1, res.2.1 ++
            [Output.toClient client (Event.autoProposeComplete res.2.2)], true⟩
        else
          ⟨res.1, res.2.1 ++ [Output.errorToSender "Failed to save actions"], true⟩

/-- `Hub.HandleMessage` for an already-decoded frame on an existing room:
the approved-participant gate runs before the dispatch switch, so a
sender absent from `room.participants` is always rejected without any
handler running. -/
def HandleMessage (env : HubEnv) (client : String) (room : Room)
    (msg : Message) : HandlerResult :=
  match room.GetParticipant client with
  | none => ⟨room, [Output.errorToSender "You must be approved to perform actions"], false⟩
  | some _ =>
      match msg.type with
      | MsgType.addTicket => handleAddTicket env client room msg.payload
      | MsgType.editTicket => handleEditTicket env client room msg.payload
      | MsgType.deleteTicket => handleDeleteTicket env client room msg.payload
      | MsgType.vote => handleVote env client room msg.payload
      | MsgType.unvote => handleUnvote env client room msg.payload
      | MsgType.addAction => handleAddAction env client room msg.payload
      | MsgType.deleteAction => handleDeleteAction env client room msg.payload
      | MsgType.markCovered => handleMarkCovered env client room msg.payload
      | MsgType.setPhase => handleSetPhase env client room msg.payload
      | MsgType.setRole => handleSetRole env client room msg.payload
      | MsgType.removeUser => handleRemoveUser env client room msg.payload
      | MsgType.approveParticipant => handleApproveParticipant env client room msg.payload
      | MsgType.rejectParticipant => handleRejectParticipant env client room msg.payload
      | MsgType.setAutoApprove => handleSetAutoApprove env client room msg.payload
      | MsgType.autoMergeTickets => handleAutoMergeTickets env client room msg.payload
      | MsgType.autoProposeActions => handleAutoProposeActions env client room msg.payload
      | MsgType.unknown => ⟨room, [Output.errorToSender "Unknown message type"], false⟩

/-- The payload built by `Hub.SendRoomState` (full view, with
`auto_approve`). -/
def fullRoomStatePayload (r : Room) : RoomStatePayload :=
  { id := r.id, name := r.name, phase := r.phase, votesPerUser := r.votesPerUser,
    autoApprove := some r.autoApprove, participants := r.participants,
    pendingParticipants := r.pendingParticipants, tickets := r.tickets,
    actionTickets := r.actionTickets }

/-- The payload built by `Hub.SendPendingRoomState`: id, name, phase and
votes-per-user from the room, every collection replaced by a freshly made
empty map, and no `auto_approve` key. -/
def pendingRoomStatePayload (r : Room) : RoomStatePayload :=
  { id := r.id, name := r.name, phase := r.phase, votesPerUser := r.votesPerUser,
    autoApprove := none, participants := [], pendingParticipants := [],
    tickets := [], actionTickets := [] }

end Hub

/-- The join dispatch of `Handler.WebSocket` (handlers.go, current
revision), after a successful upgrade and `Register`: which frames are
pushed and how the room changes, per the sender's membership.  Note that
both the already-pending branch and the newly-added branch push
`SendRoomState` — the full view — not `SendPendingRoomState`. -/
def webSocketJoin (env : HubEnv) (user : User) (room : Room) : HandlerResult :=
  match room.GetParticipant user.id with
  | some _ =>
      ⟨room,
        [Output.broadcastAll (Event.userJoined user),
         Output.toSender (Event.roomState (Hub.fullRoomStatePayload room))], false⟩
  | none =>
      match room.GetPendingParticipant user.id with
      | some p =>
          ⟨room,
            [Output.toSender (Event.roomState (Hub.fullRoomStatePayload room)),
             Output.broadcastAll (Event.participantPending p)], false⟩
      | none =>
          let room1 := room.AddParticipant user Role.participant ParticipantStatus.pending
          if env.updateOk then
            let p := (room1.GetPendingParticipant user.id).getD dummyParticipant
            ⟨room1,
              [Output.toSender (Event.roomState (Hub.fullRoomStatePayload room1)),
               Output.broadcastAll (Event.participantPending p)], true⟩
          else
            ⟨room1, [], true⟩

/-! ## Concrete fixtures for witnesses and counterexamples -/

/-- Concrete user (room owner in the fixtures). -/
def aliceU : User := { id := "alice", email := "alice@example.com", name := "Alice" }

/-- Concrete user (non-owner in the fixtures). -/
def bobU : User := { id := "bob", email := "bob@example.com", name := "Bob" }

/-- Alice as the approved owner. -/
def aliceOwnerP : Participant :=
  { user := aliceU, role := Role.owner, status := ParticipantStatus.approved, votesUsed := 0 }

/-- Bob as an approved plain participant. -/
def bobApprovedP : Participant :=
  { user := bobU, role := Role.participant, status := ParticipantStatus.approved, votesUsed := 0 }

/-- Bob as a pending participant. -/
def bobPendingP : Participant :=
  { user := bobU, role := Role.participant, status := ParticipantStatus.pending, votesUsed := 0 }

/-- A root ticket. -/
def ticketRoot : Ticket :=
  { id := "t1", content := "slow CI", authorID := "bob",
    deduplicationTicketID := none, votes := 0, voterIDs := [], covered := false }

/-- A ticket merged under `t1` (a merge child). -/
def ticketChild : Ticket :=
  { id := "t2", content := "flaky tests", authorID := "bob",
    deduplicationTicketID := some "t1", votes := 0, voterIDs := [], covered := false }

/-- Another root ticket. -/
def ticketRoot2 : Ticket :=
  { id := "t3", content := "bad docs", authorID := "alice",
    deduplicationTicketID := none, votes := 0, voterIDs := [], covered := false }

/-- Environment with a healthy repository. -/
def envOkW : HubEnv :=
  { updateOk := true, chatConfigured := true, suggestMerges := none,
    proposeActions := none, uuid := fun n => "uuid-" ++ toString n }

/-- Environment whose next `store.Update` fails. -/
def envFailW : HubEnv :=
  { updateOk := false, chatConfigured := true, suggestMerges := none,
    proposeActions := none, uuid := fun n => "uuid-" ++ toString n }

/-- Voting-phase room: alice (owner) and bob approved, a root ticket and a
merge child. -/
def roomVotingW : Room :=
  { id := "R", name := "Retro", ownerID := "alice", phase := Phase.voting,
    votesPerUser := 3, autoApprove := false,
    participants := [("alice", aliceOwnerP), ("bob", bobApprovedP)],
    pendingParticipants := [],
    tickets := [("t1", ticketRoot), ("t2", ticketChild)], actionTickets := [] }

/-- Ticketing-phase room with pending bob and one ticket. -/
def roomPendingBobW : Room :=
  { id := "R", name := "Retro", ownerID := "alice", phase := Phase.ticketing,
    votesPerUser := 3, autoApprove := false,
    participants := [("alice", aliceOwnerP)],
    pendingParticipants := [("bob", bobPendingP)],
    tickets := [("t1", ticketRoot)], actionTickets := [] }

/-- Merging-phase room with a root and a merge child. -/
def roomParentChildW : Room :=
  { id := "R", name := "Retro", ownerID := "alice", phase := Phase.merging,
    votesPerUser := 3, autoApprove := false,
    participants := [("alice", aliceOwnerP), ("bob", bobApprovedP)],
    pendingParticipants := [],
    tickets := [("t1", ticketRoot), ("t2", ticketChild)], actionTickets := [] }

/-- Merging-phase room with two root tickets. -/
def roomMergeRootsW : Room :=
  { id := "R", name := "Retro", ownerID := "alice", phase := Phase.merging,
    votesPerUser := 3, autoApprove := false,
    participants := [("alice", aliceOwnerP), ("bob", bobApprovedP)],
    pendingParticipants := [],
    tickets := [("t1", ticketRoot), ("t3", ticketRoot2)], actionTickets := [] }

/-- Ticketing-phase room with alice and bob approved, no tickets. -/
def roomTicketingW : Room :=
  { id := "R", name := "Retro", ownerID := "alice", phase := Phase.ticketing,
    votesPerUser := 3, autoApprove := false,
    participants := [("alice", aliceOwnerP), ("bob", bobApprovedP)],
    pendingParticipants := [], tickets := [], actionTickets := [] }

/-- An `add_ticket` frame. -/
def msgAddTicketW : Message :=
  { type := MsgType.addTicket, payload := { Payload.empty with content := some "new idea" } }

/-- `t1` after bob voted on it. -/
def ticketRootVoted : Ticket := { ticketRoot with votes := 1, voterIDs := ["bob"] }

/-- Voting-phase room in which bob has already spent one vote on `t1`. -/
def roomVotedW : Room :=
  { id := "R", name := "Retro", ownerID := "alice", phase := Phase.voting,
    votesPerUser := 3, autoApprove := false,
    participants := [("alice", aliceOwnerP), ("bob", { bobApprovedP with votesUsed := 1 })],
    pendingParticipants := [],
    tickets := [("t1", ticketRootVoted)], actionTickets := [] }

/-! ## Claims -/

/-- C1: every typed mutation frame from a sender who is not in the room's
approved `participants` map is rejected by `Hub.HandleMessage` before the
dispatch switch: the only emitted frame is an error to the sender, the
room is unchanged, and `store.Update` is never invoked — so nothing is
persisted and nothing is broadcast, whatever the message type. -/
theorem handleMessage_rejects_unapproved_sender (env : HubEnv) (client : String)
    (room : Room) (msg : Message) (h : room.GetParticipant client = none) :
    Hub.HandleMessage env client room msg =
      ⟨room, [Output.errorToSender "You must be approved to perform actions"], false⟩ := by
  unfold Hub.HandleMessage
  rw [h]

/-- Witness for C1: pending bob's `add_ticket` frame is rejected without
any state change. -/
theorem handleMessage_rejects_unapproved_sender_witness :
    Hub.HandleMessage envOkW "bob" roomPendingBobW msgAddTicketW =
      ⟨roomPendingBobW,
        [Output.errorToSender "You must be approved to perform actions"], false⟩ :=
  handleMessage_rejects_unapproved_sender envOkW "bob" roomPendingBobW msgAddTicketW (by decide)

/-- C10: `Room.RemoveParticipant` for a non-owner user deletes the user
from both the approved and the pending map and leaves every ticket
untouched (the whole `tickets` collection, hence every `votes` count and
`voterIDs` list, is unchanged). -/
theorem RemoveParticipant_deletes_user_and_preserves_tickets (r : Room) (u : String)
    (_h : u ≠ r.ownerID) :
    (r.RemoveParticipant u).GetParticipant u = none ∧
    (r.RemoveParticipant u).GetPendingParticipant u = none ∧
    (r.RemoveParticipant u).tickets = r.tickets := by
  refine ⟨?_, ?_, rfl⟩
  · exact alGet_alDelete_self r.participants u
  · exact alGet_alDelete_self r.pendingParticipants u

/-- Witness for C10: removing bob leaves his id in `t1`'s `voterIDs`. -/
theorem RemoveParticipant_deletes_user_and_preserves_tickets_witness :
    ((roomVotedW.RemoveParticipant "bob").GetParticipant "bob" = none ∧
     (roomVotedW.RemoveParticipant "bob").GetPendingParticipant "bob" = none ∧
     (roomVotedW.RemoveParticipant "bob").tickets = roomVotedW.tickets) ∧
    ((roomVotedW.RemoveParticipant "bob").GetTicket "t1").map Ticket.voterIDs =
      some ["bob"] :=
  ⟨RemoveParticipant_deletes_user_and_preserves_tickets roomVotedW "bob" (by decide),
   by decide⟩

/-- C4 (code evaluation at the failing input): when pending bob connects,
the `WebSocket` join dispatch pushes `SendRoomState` — the FULL payload,
whose tickets and approved-participant entries are the room's non-empty
collections — and not the stripped view `SendPendingRoomState` would
build; the two payloads differ at this very input. -/
theorem webSocketJoin_pending_gets_full_state :
    webSocketJoin envOkW bobU roomPendingBobW =
      ⟨roomPendingBobW,
        [Output.toSender (Event.roomState (Hub.fullRoomStatePayload roomPendingBobW)),
         Output.broadcastAll (Event.participantPending bobPendingP)], false⟩ ∧
    (Hub.fullRoomStatePayload roomPendingBobW).tickets = [("t1", ticketRoot)] ∧
    (Hub.fullRoomStatePayload roomPendingBobW).participants = [("alice", aliceOwnerP)] ∧
    (Hub.pendingRoomStatePayload roomPendingBobW).tickets = [] ∧
    (Hub.pendingRoomStatePayload roomPendingBobW).participants = [] ∧
    Hub.fullRoomStatePayload roomPendingBobW ≠ Hub.pendingRoomStatePayload roomPendingBobW := by
  decide

/-- C5 (counterexample): bob deletes the root `t1` in a room where `t2`
is merged under it; the surviving `t2` still carries `parentId = "t1"`,
which no longer resolves to any ticket — the claim's detach does not
happen. -/
theorem deleteTicket_leaves_dangling_child :
    (((Hub.handleDeleteTicket envOkW "bob" roomParentChildW
        { Payload.empty with ticketID := some "t1" }).room.GetTicket "t2").map
      Ticket.deduplicationTicketID = some (some "t1")) ∧
    (Hub.handleDeleteTicket envOkW "bob" roomParentChildW
        { Payload.empty with ticketID := some "t1" }).room.GetTicket "t1" = none := by
  decide

/-- C5 (amended): `deleteTicket` removes exactly the named ticket and
nothing else — every other ticket, children of the deleted one included,
is left byte-for-byte unchanged (so a child's `parentId` keeps pointing
at the deleted id), and the participant, pending, and action collections
are untouched. -/
theorem RemoveTicket_only_deletes_target (r : Room) (tid x : String) :
    ((r.RemoveTicket tid).GetTicket x = if x = tid then none else r.GetTicket x) ∧
    (r.RemoveTicket tid).participants = r.participants ∧
    (r.RemoveTicket tid).pendingParticipants = r.pendingParticipants ∧
    (r.RemoveTicket tid).actionTickets = r.actionTickets := by
  refine ⟨?_, rfl, rfl, rfl⟩
  by_cases h : x = tid
  · subst h
    simp [Room.RemoveTicket, Room.GetTicket, alGet_alDelete_self]
  · simp [Room.RemoveTicket, Room.GetTicket, alGet_alDelete_other r.tickets tid x h, h]

/-- C9 (counterexample): bob is already an approved participant with one
vote spent; calling `AddParticipant` again with pending status is not a
no-op — it creates a fresh entry with `votesUsed = 0` in the pending map
while the approved entry stays, leaving the same user id in both maps. -/
theorem AddParticipant_not_idempotent :
    (roomVotedW.AddParticipant bobU Role.participant ParticipantStatus.pending).GetPendingParticipant "bob"
      = some bobPendingP ∧
    (roomVotedW.AddParticipant bobU Role.participant ParticipantStatus.pending).GetParticipant "bob"
      = some { bobApprovedP with votesUsed := 1 } ∧
    roomVotedW.AddParticipant bobU Role.participant ParticipantStatus.pending ≠ roomVotedW := by
  decide

/-- C9 (amended): `AddParticipant` unconditionally builds a fresh
participant with `votesUsed = 0` and stores it under the user's id in the
map selected by `status` — the pending map for pending, the approved map
otherwise — replacing whatever entry that map held for the id, and never
reads or changes the other map.  It is not idempotent, and a user already
present in the other map ends up in both. -/
theorem AddParticipant_unconditional_insert (r : Room) (user : User) (role : Role)
    (status : ParticipantStatus) :
    (status = ParticipantStatus.pending →
      (r.AddParticipant user role status).GetPendingParticipant user.id =
        some { user := user, role := role, status := status, votesUsed := 0 } ∧
      (r.AddParticipant user role status).participants = r.participants) ∧
    (status ≠ ParticipantStatus.pending →
      (r.AddParticipant user role status).GetParticipant user.id =
        some { user := user, role := role, status := status, votesUsed := 0 } ∧
      (r.AddParticipant user role status).pendingParticipants = r.pendingParticipants) := by
  constructor
  · intro hs
    subst hs
    exact ⟨alGet_alInsert_self r.pendingParticipants user.id _, rfl⟩
  · intro hs
    simp only [Room.AddParticipant, Room.GetParticipant, if_neg hs]
    exact ⟨alGet_alInsert_self r.participants user.id _, trivial⟩

/-- Witness for C9's amended theorem: re-adding approved bob with pending
status stores a fresh pending entry and does not touch the approved map. -/
theorem AddParticipant_unconditional_insert_witness :
    (roomVotedW.AddParticipant bobU Role.participant ParticipantStatus.pending).GetPendingParticipant "bob"
      = some { user := bobU, role := Role.participant,
               status := ParticipantStatus.pending, votesUsed := 0 } ∧
    (roomVotedW.AddParticipant bobU Role.participant ParticipantStatus.pending).participants
      = roomVotedW.participants :=
  (AddParticipant_unconditional_insert roomVotedW bobU Role.participant
    ParticipantStatus.pending).1 rfl

/-- C2 (counterexample): `t2` is a merge child (`parentId = "t1"`), yet
bob's vote on it is accepted by the full router path and by `Room.Vote` —
the code never consults `DeduplicationTicketID`, so the claimed
child-of-merge failure condition does not exist. -/
theorem vote_succeeds_on_merge_child :
    (roomVotingW.GetTicket "t2").map Ticket.deduplicationTicketID = some (some "t1") ∧
    (roomVotingW.Vote "bob" "t2").1 = true ∧
    (Hub.HandleMessage envOkW "bob" roomVotingW
        { type := MsgType.vote,
          payload := { Payload.empty with ticketID := some "t2" } }).outputs =
      [Output.broadcastApproved (Event.voteUpdated "t2" 1 ["bob"] "bob" 1)] := by
  decide

/-- C2 (amended): for an existing approved participant and an existing
ticket, `vote(u, t)` fails leaving the room unchanged exactly when the
quota is exhausted (`votesUsed ≥ votesPerUser`) or `u` already appears in
`voterIDs`; whether `t` is a merge child is never checked.  On success the
single transition appends `u` to `t`'s `voterIDs`, increments `t`'s
`votes`, and increments `u`'s `votesUsed`. -/
theorem Vote_checks_quota_and_uniqueness_only (r : Room) (u t : String)
    (p : Participant) (tk : Ticket)
    (hp : r.GetParticipant u = some p) (ht : r.GetTicket t = some tk) :
    ((r.votesPerUser ≤ p.votesUsed ∨ u ∈ tk.voterIDs) → r.Vote u t = (false, r)) ∧
    (p.votesUsed < r.votesPerUser → u ∉ tk.voterIDs →
      (r.Vote u t).1 = true ∧
      (r.Vote u t).2.GetTicket t =
        some { tk with votes := tk.votes + 1, voterIDs := tk.voterIDs ++ [u] } ∧
      (r.Vote u t).2.GetParticipant u = some { p with votesUsed := p.votesUsed + 1 }) := by
  have hp' : alGet r.participants u = some p := hp
  have ht' : alGet r.tickets t = some tk := ht
  constructor
  · intro hcase
    by_cases hq : r.votesPerUser ≤ p.votesUsed
    · simp only [Room.Vote, hp', ht', if_pos hq]
    · simp only [Room.Vote, hp', ht', if_neg hq, if_pos (hcase.resolve_left hq)]
  · intro hq hm
    simp only [Room.Vote, hp', ht', if_neg (not_le.mpr hq), if_neg hm]
    refine ⟨trivial, ?_, ?_⟩
    · show alGet (alUpdate r.tickets t _) t = _
      rw [alGet_alUpdate_self, ht']
      rfl
    · show alGet (alUpdate r.participants u _) u = _
      rw [alGet_alUpdate_self, hp']
      rfl

/-- Witness for C2's amended theorem at bob voting on root `t1`. -/
theorem Vote_checks_quota_and_uniqueness_only_witness :
    ((roomVotingW.votesPerUser ≤ bobApprovedP.votesUsed ∨ "bob" ∈ ticketRoot.voterIDs) →
        roomVotingW.Vote "bob" "t1" = (false, roomVotingW)) ∧
    (bobApprovedP.votesUsed < roomVotingW.votesPerUser → "bob" ∉ ticketRoot.voterIDs →
      (roomVotingW.Vote "bob" "t1").1 = true ∧
      (roomVotingW.Vote "bob" "t1").2.GetTicket "t1" =
        some { ticketRoot with votes := ticketRoot.votes + 1, voterIDs := ticketRoot.voterIDs ++ ["bob"] } ∧
      (roomVotingW.Vote "bob" "t1").2.GetParticipant "bob" =
        some { bobApprovedP with votesUsed := bobApprovedP.votesUsed + 1 }) :=
  Vote_checks_quota_and_uniqueness_only roomVotingW "bob" "t1" bobApprovedP ticketRoot
    (by decide) (by decide)

/-- The `edit_ticket` payload setting `t1`'s parent to `t1` itself. -/
def plSelfParentW : Payload :=
  { Payload.empty with ticketID := some "t1", deduplicationTicketID := some (some "t1") }

/-- C3 (counterexample): bob sets `t1`'s `deduplication_ticket_id` to
`"t1"` — the edited ticket itself.  The claim requires this request to
fail with the ticket unchanged; the code accepts it, stores the
self-reference, and broadcasts the update. -/
theorem editTicket_accepts_self_parent :
    ((Hub.handleEditTicket envOkW "bob" roomMergeRootsW plSelfParentW).room.GetTicket "t1").map
        Ticket.deduplicationTicketID = some (some "t1") ∧
    (Hub.handleEditTicket envOkW "bob" roomMergeRootsW plSelfParentW).outputs =
      [Output.broadcastApproved
        (Event.ticketUpdated { ticketRoot with deduplicationTicketID := some "t1" })] := by
  decide

/-- C3 (amended): `edit_ticket` validates only that the ticket exists and
that the sender is its author or a moderator/owner.  Any string provided
as `deduplication_ticket_id` is stored as the ticket's parent unchecked —
including the ticket's own id, a non-root, or an id that names no ticket —
and the request proceeds to persistence.  (Only the not-found and
not-authorized failure paths leave the ticket unchanged.) -/
theorem handleEditTicket_stores_any_parent (env : HubEnv) (client : String)
    (room : Room) (pl : Payload) (tid s : String) (tk : Ticket)
    (hid : pl.ticketID = some tid)
    (ht : room.GetTicket tid = some tk)
    (hauth : tk.authorID = client ∨ room.IsModeratorOrOwner client = true)
    (hd : pl.deduplicationTicketID = some (some s)) :
    ((Hub.handleEditTicket env client room pl).room.GetTicket tid).map
        Ticket.deduplicationTicketID = some (some s) ∧
    (Hub.handleEditTicket env client room pl).persistAttempted = true := by
  have hcond : ¬ (tk.authorID ≠ client ∧ ¬ room.IsModeratorOrOwner client = true) := by
    rcases hauth with h | h
    · exact fun hc => hc.1 h
    · exact fun hc => hc.2 h
  have ht' : alGet room.tickets tid = some tk := ht
  have hstore : (alGet (alUpdate room.tickets tid (Hub.editMutation pl)) tid).map
      Ticket.deduplicationTicketID = some (some s) := by
    rw [alGet_alUpdate_self, ht']
    simp only [Option.map_some']
    have hded : (Hub.editMutation pl tk).deduplicationTicketID = some s := by
      unfold Hub.editMutation
      rw [hd]
    rw [hded]
  by_cases hu : env.updateOk = true
  · simp only [Hub.handleEditTicket, hid, Option.getD_some, ht, if_neg hcond, if_pos hu]
    exact ⟨hstore, trivial⟩
  · simp only [Hub.handleEditTicket, hid, Option.getD_some, ht, if_neg hcond, if_neg hu]
    exact ⟨hstore, trivial⟩

/-- The `edit_ticket` payload pointing `t1` at the non-root `t2`. -/
def plEditT1toT2W : Payload :=
  { Payload.empty with ticketID := some "t1", deduplicationTicketID := some (some "t2") }

/-- Witness for C3's amended theorem: bob points `t1` at the non-root
child `t2` — stored although the referenced ticket is itself a child. -/
theorem handleEditTicket_stores_any_parent_witness :
    ((Hub.handleEditTicket envOkW "bob" roomParentChildW plEditT1toT2W).room.GetTicket "t1").map
        Ticket.deduplicationTicketID = some (some "t2") ∧
    (Hub.handleEditTicket envOkW "bob" roomParentChildW plEditT1toT2W).persistAttempted = true :=
  handleEditTicket_stores_any_parent envOkW "bob" roomParentChildW plEditT1toT2W
    "t1" "t2" ticketRoot rfl (by decide) (Or.inl (by decide)) rfl

/-- The `set_role` frame in which the owner targets herself. -/
def msgDemoteAliceW : Message :=
  { type := MsgType.setRole,
    payload := { Payload.empty with userID := some "alice", role := some "participant" } }

/-- C7 (counterexample): alice, the room owner, targets herself with
`set_role{role: participant}`.  There is no target-not-owner check: the
frame is accepted and the owner's role entry changes to `participant`,
so the owner's role is not immutable. -/
theorem setRole_can_change_owner_role :
    (Hub.HandleMessage envOkW "alice" roomTicketingW msgDemoteAliceW).outputs =
      [Output.broadcastAll (Event.roleChanged "alice" Role.participant)] ∧
    ((Hub.HandleMessage envOkW "alice" roomTicketingW msgDemoteAliceW).room.GetParticipant
        "alice").map Participant.role = some Role.participant := by
  decide

/-- C7 (amended): `set_role` is accepted exactly when the sender is the
room owner (`room.ownerID`), the requested role parses as `moderator` or
`participant`, and the target id is a current approved participant — any
participant, the owner's own entry included; the accepted frame sets that
participant's role and broadcasts `role_changed`.  No sequence of
accepted `set_role` frames is prevented from changing the owner's role. -/
theorem handleSetRole_accepts_any_approved_target (env : HubEnv) (client : String)
    (room : Room) (pl : Payload) (uid rs : String) (ro : Role) (p : Participant)
    (hs : room.ownerID = client)
    (hu : pl.userID = some uid)
    (hr : pl.role = some rs)
    (hparse : Hub.parseAssignableRole rs = some ro)
    (hp : room.GetParticipant uid = some p)
    (hok : env.updateOk = true) :
    (Hub.handleSetRole env client room pl).outputs =
      [Output.broadcastAll (Event.roleChanged uid ro)] ∧
    (Hub.handleSetRole env client room pl).room.GetParticipant uid =
      some { p with role := ro } := by
  have hp' : alGet room.participants uid = some p := hp
  have hown : ¬ room.ownerID ≠ client := fun hc => hc hs
  simp only [Hub.handleSetRole, if_neg hown, hu, hr, Option.getD_some, hparse,
    Room.SetParticipantRole, hp', if_pos hok]
  refine ⟨trivial, ?_⟩
  show alGet (alUpdate room.participants uid _) uid = _
  rw [alGet_alUpdate_self, hp']
  rfl

/-- Witness for C7's amended theorem: alice promotes bob to moderator. -/
theorem handleSetRole_accepts_any_approved_target_witness :
    (Hub.handleSetRole envOkW "alice" roomTicketingW
        { Payload.empty with userID := some "bob", role := some "moderator" }).outputs =
      [Output.broadcastAll (Event.roleChanged "bob" Role.moderator)] ∧
    (Hub.handleSetRole envOkW "alice" roomTicketingW
        { Payload.empty with userID := some "bob", role := some "moderator" }).room.GetParticipant "bob" =
      some { bobApprovedP with role := Role.moderator } :=
  handleSetRole_accepts_any_approved_target envOkW "alice" roomTicketingW
    { Payload.empty with userID := some "bob", role := some "moderator" }
    "bob" "moderator" Role.moderator bobApprovedP
    rfl rfl rfl rfl (by decide) rfl

theorem removeFirstVoter_append_self (l : List String) (u : String) (h : u ∉ l) :
    removeFirstVoter (l ++ [u]) u = some l := by
  induction l with
  | nil => simp [removeFirstVoter]
  | cons a as ih =>
      have ha : ¬ a = u := fun e => h (List.mem_cons.mpr (Or.inl e.symm))
      have has : u ∉ as := fun hm => h (List.mem_cons_of_mem a hm)
      simp [removeFirstVoter, ha, ih has]

/-- C8: when approved `u` has a vote left and is not yet among `t`'s
voters, `vote(u, t)` succeeds and an immediately following `unvote(u, t)`
succeeds and restores the room — `t`'s `votes`, `t`'s `voterIDs` and
`u`'s `votesUsed` (indeed the entire room value) — to exactly the
pre-vote state. -/
theorem vote_unvote_roundtrip (r : Room) (u t : String) (p : Participant) (tk : Ticket)
    (hp : r.GetParticipant u = some p) (ht : r.GetTicket t = some tk)
    (hnv : u ∉ tk.voterIDs) (hq : p.votesUsed < r.votesPerUser) :
    (r.Vote u t).1 = true ∧ (r.Vote u t).2.Unvote u t = (true, r) := by
  have hp' : alGet r.participants u = some p := hp
  have ht' : alGet r.tickets t = some tk := ht
  have hvote : r.Vote u t = (true, { r with
      tickets := alUpdate r.tickets t
        (fun t0 => { t0 with votes := t0.votes + 1, voterIDs := t0.voterIDs ++ [u] })
      participants := alUpdate r.participants u
        (fun p0 => { p0 with votesUsed := p0.votesUsed + 1 }) }) := by
    simp only [Room.Vote, hp', ht', if_neg (not_le.mpr hq), if_neg hnv]
  refine ⟨by rw [hvote], ?_⟩
  rw [hvote]
  have hpt : alGet (alUpdate r.participants u
      (fun p0 => { p0 with votesUsed := p0.votesUsed + 1 })) u
      = some { p with votesUsed := p.votesUsed + 1 } := by
    rw [alGet_alUpdate_self, hp']
    rfl
  have htt : alGet (alUpdate r.tickets t
      (fun t0 => { t0 with votes := t0.votes + 1, voterIDs := t0.voterIDs ++ [u] })) t
      = some { tk with votes := tk.votes + 1, voterIDs := tk.voterIDs ++ [u] } := by
    rw [alGet_alUpdate_self, ht']
    rfl
  have hrem : removeFirstVoter (tk.voterIDs ++ [u]) u = some tk.voterIDs :=
    removeFirstVoter_append_self tk.voterIDs u hnv
  have htick : alUpdate (alUpdate r.tickets t
      (fun t0 => { t0 with votes := t0.votes + 1, voterIDs := t0.voterIDs ++ [u] })) t
      (fun t0 => { t0 with votes := t0.votes - 1, voterIDs := tk.voterIDs }) = r.tickets := by
    rw [alUpdate_alUpdate]
    refine alUpdate_fixpoint r.tickets t _ tk ht' ?_
    show ({ tk with votes := tk.votes + 1 - 1, voterIDs := tk.voterIDs } : Ticket) = tk
    have hv : tk.votes + 1 - 1 = tk.votes := by omega
    rw [hv]
  have hpart : alUpdate (alUpdate r.participants u
      (fun p0 => { p0 with votesUsed := p0.votesUsed + 1 })) u
      (fun p0 => { p0 with votesUsed := p0.votesUsed - 1 }) = r.participants := by
    rw [alUpdate_alUpdate]
    refine alUpdate_fixpoint r.participants u _ p hp' ?_
    show ({ p with votesUsed := p.votesUsed + 1 - 1 } : Participant) = p
    have hv : p.votesUsed + 1 - 1 = p.votesUsed := by omega
    rw [hv]
  show Room.Unvote _ u t = (true, r)
  simp only [Room.Unvote, hpt, htt, hrem, htick, hpart]

/-- Witness for C8: bob votes on `t1` and immediately unvotes; the room
returns to `roomVotingW` exactly. -/
theorem vote_unvote_roundtrip_witness :
    (roomVotingW.Vote "bob" "t1").1 = true ∧
    (roomVotingW.Vote "bob" "t1").2.Unvote "bob" "t1" = (true, roomVotingW) :=
  vote_unvote_roundtrip roomVotingW "bob" "t1" bobApprovedP ticketRoot
    (by decide) (by decide) (by decide) (by decide)

/-- Environment for the C6 counterexample: the suggester proposes merging
`t3` under `t1`, and the next `store.Update` fails. -/
def envMergeFailW : HubEnv :=
  { updateOk := false, chatConfigured := true,
    suggestMerges := some { mergeGroups := [{ parentTicketID := "t1", childTicketIDs := ["t3"] }] },
    proposeActions := none, uuid := fun n => "uuid-" ++ toString n }

/-- An `auto_merge` frame. -/
def msgAutoMergeW : Message := { type := MsgType.autoMergeTickets, payload := Payload.empty }

/-- C6 (counterexample): alice triggers `auto_merge`; one child merge is
applied and its `ticket_updated` frame is broadcast to the approved
participants *before* the single `store.Update`, which then fails — so the
mutation's event frame has already gone out to other clients despite the
persistence failure, and only afterwards does the sender get the error. -/
theorem autoMerge_broadcasts_before_failed_persist :
    (Hub.HandleMessage envMergeFailW "alice" roomMergeRootsW msgAutoMergeW).outputs =
      [Output.toClient "alice" (Event.autoMergeProgress "analyzing"),
       Output.broadcastApproved
         (Event.ticketUpdated { ticketRoot2 with deduplicationTicketID := some "t1" }),
       Output.errorToSender "Failed to save changes"] ∧
    (Hub.HandleMessage envMergeFailW "alice" roomMergeRootsW msgAutoMergeW).persistAttempted
      = true := by
  decide

/-- C6 (amended): for every inbound mutation frame other than
`auto_merge` and `auto_propose_actions`, a failing `Repository.update`
leaves the sender with a single error frame and nothing broadcast to any
other client.  The two suggester-driven handlers broadcast one event per
applied item *before* the final persistence call, so on failure those
frames have already been delivered. -/
theorem persistFailure_error_only_outside_auto (env : HubEnv) (client : String)
    (room : Room) (msg : Message)
    (hupd : env.updateOk = false)
    (h1 : msg.type ≠ MsgType.autoMergeTickets)
    (h2 : msg.type ≠ MsgType.autoProposeActions) :
    ∃ m, (Hub.HandleMessage env client room msg).outputs = [Output.errorToSender m] := by
  unfold Hub.HandleMessage
  rcases hgp : room.GetParticipant client with _ | p
  · simp only [hgp]
    exact ⟨_, rfl⟩
  · simp only [hgp]
    cases htyp : msg.type <;> simp only [htyp] <;>
      first
        | exact absurd htyp h1
        | exact absurd htyp h2
        | exact ⟨_, rfl⟩
        | (simp only [Hub.handleAddTicket, Hub.handleEditTicket, Hub.handleDeleteTicket,
            Hub.handleVote, Hub.handleUnvote, Hub.handleAddAction, Hub.handleDeleteAction,
            Hub.handleMarkCovered, Hub.handleSetPhase, Hub.handleSetRole, Hub.handleRemoveUser,
            Hub.handleApproveParticipant, Hub.handleRejectParticipant, Hub.handleSetAutoApprove]
           repeat' split
           all_goals first | exact ⟨_, rfl⟩ | simp_all)

/-- Witness for C6's amended theorem: bob's `add_ticket` under a failing
repository yields only an error frame to bob. -/
theorem persistFailure_error_only_outside_auto_witness :
    ∃ m, (Hub.HandleMessage envFailW "bob" roomTicketingW msgAddTicketW).outputs =
      [Output.errorToSender m] :=
  persistFailure_error_only_outside_auto envFailW "bob" roomTicketingW msgAddTicketW
    rfl (by decide) (by decide)

end GoRetro
